import Mathlib

/-!
Verification of the realtime room/presence/moderation engine of the
Global-Chat repository (`server.js`), shallowly embedded in Lean.

JavaScript `Map`s are modelled as association lists with JS `Map`
semantics: `set` overwrites in place when the key exists and appends
otherwise (preserving insertion order), `get` returns the first binding,
`delete` removes the binding.  Timestamps (`Date.now()`) are `Nat`.
Events emitted on the socket transport are collected in a list, with the
recipient set computed at emission time exactly as `io.to(room)` /
`socket.emit` / `socket.to(room)` do.
-/

namespace GlobalChat

/-- JS `Map.get` on an association list: first binding for the key. -/
def getA {α β : Type} [DecidableEq α] : List (α × β) → α → Option β
  | [], _ => none
  | (k, v) :: rest, a => if k = a then some v else getA rest a

/-- JS `Map.set`: overwrite in place when the key exists (keeping its
insertion position), append otherwise. -/
def setA {α β : Type} [DecidableEq α] : List (α × β) → α → β → List (α × β)
  | [], a, b => [(a, b)]
  | (k, v) :: rest, a, b =>
    if k = a then (a, b) :: rest else (k, v) :: setA rest a b

/-- JS `Map.delete`: remove the binding for the key. -/
def eraseA {α β : Type} [DecidableEq α] : List (α × β) → α → List (α × β)
  | [], _ => []
  | (k, v) :: rest, a => if k = a then rest else (k, v) :: eraseA rest a

/-- `startsWithL s p` : `p` is a prefix of `s` (on character lists). -/
def startsWithL : List Char → List Char → Bool
  | _, [] => true
  | [], _ :: _ => false
  | a :: as, b :: bs => (a = b) && startsWithL as bs

/-- JS `String.prototype.includes` on character lists: `p` occurs as a
contiguous substring of `s` (the empty pattern always occurs). -/
def includesL : List Char → List Char → Bool
  | [], p => p.isEmpty
  | a :: as, p => startsWithL (a :: as) p || includesL as p

/-- JS `text.includes(p)`. -/
def strIncludes (text p : String) : Bool :=
  includesL text.data p.data

/-- JS `String.prototype.toLowerCase`, lowercasing each character (the
contents here are ASCII, where this agrees exactly with JS). -/
def strToLower (s : String) : String :=
  ⟨s.data.map Char.toLower⟩

/-- Per-user moderation state, `userStrikeState` entry
(`{ strikes: 0, bannedUntil: 0 }` default, server.js line 195). -/
structure StrikeState where
  strikes : Nat
  bannedUntil : Nat
  deriving DecidableEq, Repr

/-- The identity fields the server stores on a socket
(`socket.userId` / `socket.username`, set only by `user:join`). -/
structure SocketInfo where
  userId : Option String
  username : Option String
  deriving DecidableEq, Repr

/-- A value of the per-room `onlineUsers` map
(`{ username, socketId }`, server.js line 131). -/
structure UserEntry where
  username : String
  socketId : String
  deriving DecidableEq, Repr

/-- The `message:send` payload: only `content` and `groupId` are read by
the server; the whole object is fanned out verbatim. -/
structure MessageData where
  content : Option String
  groupId : String
  userId : Option String
  username : Option String
  deriving DecidableEq, Repr

/-- The mutable server state: `onlineUsers` (room → userId → entry),
`userStrikeState` (socket.userId → strikes/ban), `bannedPatterns`, the
socket.io room membership (room → connection ids, what `io.to` targets),
and the per-socket identity fields. -/
structure ServerState where
  onlineUsers : List (String × List (String × UserEntry))
  userStrikeState : List (Option String × StrikeState)
  bannedPatterns : List String
  rooms : List (String × List String)
  sockets : List (String × SocketInfo)
  deriving DecidableEq, Repr

/-- Events emitted on the transport, with recipients made explicit.
`storeMessage` models the spec's persistence-collaborator call
(`storeMessage`, spec §6); the `message:send` handler in server.js
contains no such call, so no embedded handler ever produces it. -/
inductive Emit where
  | usersUpdate (recipients : List String) (groupId : String)
      (users : List (String × String))
  | userJoined (recipients : List String) (groupId : String) (username : String)
  | messageNew (recipients : List String) (message : MessageData)
  | messageWarning (recipient : String) (strikes : Nat)
  | messageBlocked (recipient : String) (bannedUntil : Nat)
  | storeMessage (message : MessageData)
  deriving DecidableEq, Repr

/-- Is this emission the persistence signal? -/
def isStoreEmit : Emit → Bool
  | .storeMessage _ => true
  | _ => false

/-- The socket record for a connection (fields default to `undefined`,
i.e. `none`, before any `user:join`). -/
def socketOf (st : ServerState) (c : String) : SocketInfo :=
  (getA st.sockets c).getD ⟨none, none⟩

/-- The socket.io room membership list for a room (targets of `io.to`). -/
def roomConns (st : ServerState) (g : String) : List String :=
  (getA st.rooms g).getD []

/-- The presence map of a room (`onlineUsers.get(groupId)`, empty when
absent). -/
def groupUsersOf (st : ServerState) (g : String) : List (String × UserEntry) :=
  (getA st.onlineUsers g).getD []

/-- `Array.from(map.values()).map(u => ({ id: u.socketId, username: u.username }))`. -/
def snapshotUsers (l : List (String × UserEntry)) : List (String × String) :=
  l.map (fun p => (p.2.socketId, p.2.username))

/-- `bannedPatterns.find((p) => p && text.includes(p))` (server.js 205):
first pattern contained in `text`, skipping falsy (empty) patterns. -/
def findMatch (pats : List String) (text : String) : Option String :=
  pats.find? (fun p => (p != "") && strIncludes text p)

/-- The `user:join` handler (server.js 123-147): record identity on the
socket, join the socket.io room, insert/overwrite the presence entry for
`(groupId, userId)`, broadcast the snapshot to the room and a
`user:joined` notice to the room minus the sender. -/
def handleJoin (st : ServerState) (connId userId username groupId : String) :
    ServerState × List Emit :=
  let sockets' := setA st.sockets connId ⟨some userId, some username⟩
  let cur := (getA st.rooms groupId).getD []
  let rooms' := setA st.rooms groupId (if connId ∈ cur then cur else cur ++ [connId])
  let gUsers := (getA st.onlineUsers groupId).getD []
  let gUsers' := setA gUsers userId ⟨username, connId⟩
  let onlineUsers' := setA st.onlineUsers groupId gUsers'
  let st' : ServerState :=
    { st with sockets := sockets', rooms := rooms', onlineUsers := onlineUsers' }
  (st',
   [Emit.usersUpdate (roomConns st' groupId) groupId (snapshotUsers gUsers'),
    Emit.userJoined ((roomConns st' groupId).filter (fun c => c ≠ connId)) groupId
      username])

/-- The `message:send` handler (server.js 188-236).  Reads the sender's
strike entry (default `{strikes: 0, bannedUntil: 0}`); while
`bannedUntil > now` emits a blocked notice to the sender and stops; on a
banned-pattern match increments strikes, converting the third strike
into a 10-minute ban with strikes reset, emitting a warning or blocked
notice to the sender only; otherwise fans the payload out to the
socket.io room `messageData.groupId`.  Nothing in the handler can throw
in this model, so the catch-all fallback (lines 232-235) is dead code
here. -/
def handleSend (st : ServerState) (connId : String) (msg : MessageData)
    (now : Nat) : ServerState × List Emit :=
  let uid := (socketOf st connId).userId
  let state := (getA st.userStrikeState uid).getD ⟨0, 0⟩
  if state.bannedUntil ≠ 0 ∧ state.bannedUntil > now then
    (st, [Emit.messageBlocked connId state.bannedUntil])
  else
    let text := strToLower (msg.content.getD "")
    match findMatch st.bannedPatterns text with
    | some _ =>
      let strikes' := state.strikes + 1
      if strikes' ≥ 3 then
        let strikeMap := setA st.userStrikeState uid ⟨0, now + 10 * 60 * 1000⟩
        ({ st with userStrikeState := strikeMap },
         [Emit.messageBlocked connId (now + 10 * 60 * 1000)])
      else
        let strikeMap := setA st.userStrikeState uid ⟨strikes', state.bannedUntil⟩
        ({ st with userStrikeState := strikeMap },
         [Emit.messageWarning connId strikes'])
    | none => (st, [Emit.messageNew (roomConns st msg.groupId) msg])

/-- One room's worth of the `disconnect` handler's `forEach` (server.js
241-253): when the socket has a `userId` present in the room's presence
map, delete that key and emit the updated snapshot to the room. -/
def removeUid (uid : Option String) (gUsers : List (String × UserEntry)) :
    List (String × UserEntry) :=
  match uid with
  | none => gUsers
  | some u => if (getA gUsers u).isSome then eraseA gUsers u else gUsers

/-- The `forEach` over `onlineUsers` in the `disconnect` handler,
returning the updated outer map and the emitted `users:update` events in
iteration (insertion) order.  `roomsAfter` is the socket.io membership at
emission time (the disconnected socket has already left its rooms). -/
def disconnectStep (uid : Option String)
    (roomsAfter : List (String × List String)) :
    List (String × List (String × UserEntry)) →
      List (String × List (String × UserEntry)) × List Emit
  | [] => ([], [])
  | (g, gUsers) :: rest =>
    let res := disconnectStep uid roomsAfter rest
    match uid with
    | some u =>
      if (getA gUsers u).isSome then
        ((g, eraseA gUsers u) :: res.1,
         Emit.usersUpdate ((getA roomsAfter g).getD []) g
             (snapshotUsers (eraseA gUsers u))
           :: res.2)
      else ((g, gUsers) :: res.1, res.2)
    | none => ((g, gUsers) :: res.1, res.2)

/-- The `disconnect` handler (server.js 238-254).  socket.io removes the
socket from its rooms (and the socket dies) before the handler runs; the
handler then walks every room's presence map and deletes the entry keyed
by `socket.userId` wherever present, broadcasting the new snapshot. -/
def handleDisconnect (st : ServerState) (connId : String) :
    ServerState × List Emit :=
  let rooms' := st.rooms.map (fun p => (p.1, p.2.filter (fun c => c ≠ connId)))
  let uid := (socketOf st connId).userId
  let res := disconnectStep uid rooms' st.onlineUsers
  ({ st with onlineUsers := res.1, rooms := rooms',
             sockets := eraseA st.sockets connId }, res.2)

/-- A row of the `banned_usernames` collection as projected by
`loadBannedPatterns` (`r.username` may be missing). -/
structure BannedRow where
  username : Option String
  deriving DecidableEq, Repr

/-- `loadBannedPatterns` (server.js 73-85): with no database, or when the
fetch fails, `bannedPatterns` is left untouched; on success it is
replaced in a single assignment by the lowercased `username` fields. -/
def loadBannedPatterns (dbAvailable : Bool)
    (fetched : Except String (List BannedRow)) (current : List String) :
    List String :=
  if !dbAvailable then current
  else
    match fetched with
    | .error _ => current
    | .ok rows => rows.map (fun r => strToLower (r.username.getD ""))

/-- Updating only the strike map of a server state. -/
def withStrikes (st : ServerState) (m : List (Option String × StrikeState)) :
    ServerState :=
  { st with userStrikeState := m }

/-! ### Concrete states used by witnesses and counterexamples -/

/-- A fresh server with one banned pattern and no connections. -/
def stEx0 : ServerState := ⟨[], [], ["spam"], [], []⟩

/-- A server where connections `c1` (alice) and `c2` (bob) have joined room
`R`, with banned pattern `spam` and no strikes recorded. -/
def stEx1 : ServerState :=
  ⟨[("R", [("u1", ⟨"alice", "c1"⟩), ("u2", ⟨"bob", "c2"⟩)])], [], ["spam"],
   [("R", ["c1", "c2"])],
   [("c1", ⟨some "u1", some "alice"⟩), ("c2", ⟨some "u2", some "bob"⟩)]⟩

/-- `stEx1` after the pattern list has been replaced by the empty list. -/
def stEx3 : ServerState :=
  { stEx1 with bannedPatterns := [] }

/-- A server with room `R` subscribed to by `cA` and `cB`, neither of which
has ever processed a `user:join` (no socket records at all). -/
def stEx4 : ServerState := ⟨[], [], ["spam"], [("R", ["cA", "cB"])], []⟩

def msgSpam : MessageData := ⟨some "this is SPAM", "R", some "u1", some "alice"⟩
def msgHello : MessageData := ⟨some "hello", "R", some "u1", some "alice"⟩
def msgEmpty : MessageData := ⟨some "", "R", some "u1", some "alice"⟩
def msgOutside : MessageData := ⟨some "hi there", "R", none, none⟩
def msgAnon : MessageData := ⟨some "spam", "R", none, none⟩

/-- User `u` joins room `R` from connection `c1`. -/
def exReconnect1 : ServerState := (handleJoin stEx0 "c1" "u" "alice" "R").1

/-- The same user then joins room `R` again from a newer connection `c2`
(last-writer-wins: the presence entry is now bound to `c2`). -/
def exReconnect2 : ServerState := (handleJoin exReconnect1 "c2" "u" "alice" "R").1

/-- Connection `c1` joins room `A`. -/
def exHop1 : ServerState := (handleJoin stEx0 "c1" "u" "alice" "A").1

/-- The same connection then joins room `B` without leaving `A`. -/
def exHop2 : ServerState := (handleJoin exHop1 "c1" "u" "alice" "B").1

/-! ### Association-list lemmas -/

theorem getA_setA_self {α β : Type} [DecidableEq α] (l : List (α × β)) (a : α) (b : β) :
    getA (setA l a b) a = some b := by
  induction l with
  | nil => simp [getA, setA]
  | cons hd tl ih =>
    obtain ⟨k, v⟩ := hd
    by_cases hk : k = a
    · simp [getA, setA, hk]
    · simp [getA, setA, hk, ih]

theorem getA_setA_ne {α β : Type} [DecidableEq α] (l : List (α × β)) (a c : α) (b : β)
    (h : c ≠ a) : getA (setA l a b) c = getA l c := by
  induction l with
  | nil => simp [getA, setA, Ne.symm h]
  | cons hd tl ih =>
    obtain ⟨k, v⟩ := hd
    by_cases hk : k = a
    · subst hk
      simp [getA, setA, Ne.symm h]
    · simp [getA, setA, hk, ih]

theorem getA_eraseA_ne {α β : Type} [DecidableEq α] (l : List (α × β)) (a c : α)
    (h : c ≠ a) : getA (eraseA l a) c = getA l c := by
  induction l with
  | nil => simp [getA, eraseA]
  | cons hd tl ih =>
    obtain ⟨k, v⟩ := hd
    by_cases hk : k = a
    · subst hk
      simp [getA, eraseA, Ne.symm h]
    · simp [getA, eraseA, hk, ih]

theorem getA_eq_none_of_not_mem {α β : Type} [DecidableEq α] (l : List (α × β)) (a : α)
    (h : a ∉ l.map Prod.fst) : getA l a = none := by
  induction l with
  | nil => simp [getA]
  | cons hd tl ih =>
    obtain ⟨k, v⟩ := hd
    simp only [List.map_cons, List.mem_cons] at h
    push_neg at h
    simp [getA, Ne.symm h.1, ih h.2]

theorem getA_eraseA_self {α β : Type} [DecidableEq α] (l : List (α × β)) (a : α)
    (h : (l.map Prod.fst).Nodup) : getA (eraseA l a) a = none := by
  induction l with
  | nil => simp [eraseA, getA]
  | cons hd tl ih =>
    obtain ⟨k, v⟩ := hd
    simp only [List.map_cons, List.nodup_cons] at h
    by_cases hk : k = a
    · subst hk
      simp only [eraseA, if_pos rfl]
      exact getA_eq_none_of_not_mem tl k h.1
    · simp [eraseA, getA, hk, ih h.2]

theorem getA_map_value {α β : Type} [DecidableEq α] (f : β → β) (l : List (α × β))
    (a : α) : getA (l.map (fun p => (p.1, f p.2))) a = (getA l a).map f := by
  induction l with
  | nil => simp [getA]
  | cons hd tl ih =>
    obtain ⟨k, v⟩ := hd
    by_cases hk : k = a <;> simp [getA, hk, ih]

/-! ### handleSend step lemmas -/

theorem socketOf_withStrikes (st : ServerState) (m : List (Option String × StrikeState))
    (c : String) : socketOf (withStrikes st m) c = socketOf st c := rfl

theorem roomConns_withStrikes (st : ServerState) (m : List (Option String × StrikeState))
    (g : String) : roomConns (withStrikes st m) g = roomConns st g := rfl

/-- A sender whose strike entry has `bannedUntil > now` gets only a blocked
notice carrying that `bannedUntil`, and the state is untouched. -/
theorem handleSend_blocked_of_muted (st : ServerState) (c : String) (msg : MessageData)
    (now s b : Nat)
    (hstate : (getA st.userStrikeState (socketOf st c).userId).getD ⟨0, 0⟩ = ⟨s, b⟩)
    (hmuted : b > now) :
    handleSend st c msg now = (st, [Emit.messageBlocked c b]) := by
  simp only [handleSend, hstate]
  rw [if_pos (by constructor <;> omega)]

/-- A banned-pattern match below the third strike: increment strikes, keep
`bannedUntil`, warn the sender only. -/
theorem handleSend_warning_step (st : ServerState) (c : String) (msg : MessageData)
    (now s b : Nat)
    (hstate : (getA st.userStrikeState (socketOf st c).userId).getD ⟨0, 0⟩ = ⟨s, b⟩)
    (hnm : b ≤ now)
    (hmatch : (findMatch st.bannedPatterns (strToLower (msg.content.getD ""))).isSome)
    (hlt : s + 1 < 3) :
    handleSend st c msg now =
      (withStrikes st (setA st.userStrikeState (socketOf st c).userId ⟨s + 1, b⟩),
       [Emit.messageWarning c (s + 1)]) := by
  obtain ⟨p, hp⟩ := Option.isSome_iff_exists.mp hmatch
  simp only [handleSend, hstate, hp]
  rw [if_neg (by omega)]
  rw [if_neg (by omega)]
  rfl

/-- A banned-pattern match reaching the third strike: 10-minute ban, strikes
reset to zero, blocked notice to the sender only. -/
theorem handleSend_mute_step (st : ServerState) (c : String) (msg : MessageData)
    (now s b : Nat)
    (hstate : (getA st.userStrikeState (socketOf st c).userId).getD ⟨0, 0⟩ = ⟨s, b⟩)
    (hnm : b ≤ now)
    (hmatch : (findMatch st.bannedPatterns (strToLower (msg.content.getD ""))).isSome)
    (hge : s + 1 ≥ 3) :
    handleSend st c msg now =
      (withStrikes st
         (setA st.userStrikeState (socketOf st c).userId ⟨0, now + 10 * 60 * 1000⟩),
       [Emit.messageBlocked c (now + 10 * 60 * 1000)]) := by
  obtain ⟨p, hp⟩ := Option.isSome_iff_exists.mp hmatch
  simp only [handleSend, hstate, hp]
  rw [if_neg (by omega)]
  rw [if_pos (by omega)]
  rfl

/-- No mute and no pattern match: the payload is fanned out verbatim to the
socket.io room `msg.groupId` and nothing else happens. -/
theorem handleSend_fanout (st : ServerState) (c : String) (msg : MessageData)
    (now s b : Nat)
    (hstate : (getA st.userStrikeState (socketOf st c).userId).getD ⟨0, 0⟩ = ⟨s, b⟩)
    (hnm : b ≤ now)
    (hnomatch : findMatch st.bannedPatterns (strToLower (msg.content.getD "")) = none) :
    handleSend st c msg now =
      (st, [Emit.messageNew (roomConns st msg.groupId) msg]) := by
  simp only [handleSend, hstate, hnomatch]
  rw [if_neg (by omega)]

/-! ### Disconnect and join structural lemmas -/

theorem removeUid_nil (uid : Option String) : removeUid uid [] = [] := by
  cases uid <;> simp [removeUid, getA]

theorem disconnectStep_fst (uid : Option String)
    (roomsAfter : List (String × List String))
    (l : List (String × List (String × UserEntry))) :
    (disconnectStep uid roomsAfter l).1 = l.map (fun p => (p.1, removeUid uid p.2)) := by
  induction l with
  | nil => simp [disconnectStep]
  | cons hd tl ih =>
    obtain ⟨g, gu⟩ := hd
    cases uid with
    | none => simp [disconnectStep, removeUid, ih]
    | some u =>
      by_cases hg : (getA gu u).isSome
      · simp [disconnectStep, removeUid, hg, ih]
      · simp [disconnectStep, removeUid, hg, ih]

theorem handleDisconnect_onlineUsers (st : ServerState) (c : String) :
    (handleDisconnect st c).1.onlineUsers =
      (disconnectStep (socketOf st c).userId
        (st.rooms.map (fun p => (p.1, p.2.filter (fun x => x ≠ c))))
        st.onlineUsers).1 := rfl

/-- What `disconnect` does to one room's presence map: delete the entry keyed
by the socket's `userId` when present, regardless of which connection the
entry is bound to. -/
theorem groupUsersOf_disconnect (st : ServerState) (c g : String) :
    groupUsersOf (handleDisconnect st c).1 g =
      removeUid (socketOf st c).userId (groupUsersOf st g) := by
  unfold groupUsersOf
  rw [handleDisconnect_onlineUsers, disconnectStep_fst, getA_map_value]
  cases h : getA st.onlineUsers g
  · simp [removeUid_nil]
  · simp

theorem handleJoin_onlineUsers (st : ServerState) (c u un g : String) :
    (handleJoin st c u un g).1.onlineUsers =
      setA st.onlineUsers g (setA ((getA st.onlineUsers g).getD []) u ⟨un, c⟩) := rfl

/-! ### Pattern-matching lemmas -/

/-- The moderation predicate rejects every pattern against empty text: an
empty pattern is skipped by the truthiness guard, and a non-empty pattern is
not a substring of the empty string. -/
theorem sendPredEmptyText (p : String) : ((p != "") && strIncludes "" p) = false := by
  by_cases hp : p = ""
  · subst hp; simp
  · have hd : p.data ≠ [] := by
      intro h
      apply hp
      cases p with
      | mk l => cases h; rfl
    cases hdd : p.data with
    | nil => exact absurd hdd hd
    | cons a as => simp [strIncludes, hdd, includesL]

theorem findMatch_empty_text (pats : List String) : findMatch pats "" = none := by
  rw [findMatch, List.find?_eq_none]
  intro p hp
  simp [sendPredEmptyText]

theorem find?_filter_both {α : Type} (q r : α → Bool) (l : List α) :
    l.find? (fun x => q x && r x) = (l.filter q).find? (fun x => q x && r x) := by
  induction l with
  | nil => rfl
  | cons a as ih =>
    by_cases hq : q a
    · by_cases hr : r a
      · rw [List.find?_cons_of_pos _ (by simp [hq, hr]),
            List.filter_cons_of_pos hq,
            List.find?_cons_of_pos _ (by simp [hq, hr])]
      · rw [List.find?_cons_of_neg _ (by simp [hr]),
            List.filter_cons_of_pos hq,
            List.find?_cons_of_neg _ (by simp [hr]), ih]
    · rw [List.find?_cons_of_neg _ (by simp [hq]),
          List.filter_cons_of_neg (by simpa using hq), ih]

/-- Empty strings in the pattern list never influence matching. -/
theorem findMatch_filter_empty (pats : List String) (text : String) :
    findMatch pats text = findMatch (pats.filter (fun p => p != "")) text := by
  unfold findMatch
  exact find?_filter_both (fun p => p != "") (fun p => strIncludes text p) pats

/-! ### Claims -/

/-- Claim C1: for a sender who is not muted (`bannedUntil ≤ now`), a message
containing a banned pattern while strikes < 2 increments strikes by one,
leaves `bannedUntil` unchanged (so the user stays unmuted), and emits exactly
one warning carrying the new strike count, addressed to the sender only; the
match that brings strikes to 3 sets `bannedUntil` to `now` + 10 minutes
(600000 ms), resets strikes to 0, and emits exactly one blocked notice to the
sender only.  In both cases the full emission list is that single notice, so
the message is never fanned out. -/
theorem C1_strike_progression (st : ServerState) (c : String) (msg : MessageData)
    (now s b : Nat)
    (hstate : (getA st.userStrikeState (socketOf st c).userId).getD ⟨0, 0⟩ = ⟨s, b⟩)
    (hnm : b ≤ now)
    (hmatch : (findMatch st.bannedPatterns (strToLower (msg.content.getD ""))).isSome) :
    (s < 2 →
      handleSend st c msg now =
        (withStrikes st (setA st.userStrikeState (socketOf st c).userId ⟨s + 1, b⟩),
         [Emit.messageWarning c (s + 1)])) ∧
    (s = 2 →
      handleSend st c msg now =
        (withStrikes st
           (setA st.userStrikeState (socketOf st c).userId ⟨0, now + 10 * 60 * 1000⟩),
         [Emit.messageBlocked c (now + 10 * 60 * 1000)])) := by
  constructor
  · intro hs
    exact handleSend_warning_step st c msg now s b hstate hnm hmatch (by omega)
  · intro hs
    exact handleSend_mute_step st c msg now s b hstate hnm hmatch (by omega)

/-- Claim C1 witness: in `stEx1` (strikes 0), a spam message yields warning
with strike count 1; with a prior strike count of 2, it yields the mute. -/
theorem C1_witness :
    handleSend stEx1 "c1" msgSpam 1000 =
      (withStrikes stEx1 (setA stEx1.userStrikeState (some "u1") ⟨1, 0⟩),
       [Emit.messageWarning "c1" 1]) ∧
    handleSend (withStrikes stEx1 [(some "u1", ⟨2, 0⟩)]) "c1" msgSpam 1000 =
      (withStrikes (withStrikes stEx1 [(some "u1", ⟨2, 0⟩)])
         (setA [(some "u1", ⟨2, 0⟩)] (some "u1") ⟨0, 1000 + 10 * 60 * 1000⟩),
       [Emit.messageBlocked "c1" (1000 + 10 * 60 * 1000)]) := by
  constructor
  · exact (C1_strike_progression stEx1 "c1" msgSpam 1000 0 0 (by decide) (by decide)
      (by decide)).1 (by decide)
  · exact (C1_strike_progression (withStrikes stEx1 [(some "u1", ⟨2, 0⟩)]) "c1" msgSpam
      1000 2 0 (by decide) (by decide) (by decide)).2 (by decide)

/-- Claim C2: while the sender's strike entry has `bannedUntil > now`, every
message attempt — whatever its content, which is therefore never evaluated
(the conclusion is uniform in `msg`) — returns the state unchanged and emits
exactly one blocked notice to the sender carrying that same `bannedUntil`;
in particular nothing is fanned out. -/
theorem C2_muted_blocks (st : ServerState) (c : String) (now s b : Nat)
    (hentry : getA st.userStrikeState (socketOf st c).userId = some ⟨s, b⟩)
    (hmuted : b > now) :
    ∀ msg : MessageData, handleSend st c msg now = (st, [Emit.messageBlocked c b]) :=
  fun msg =>
    handleSend_blocked_of_muted st c msg now s b (by rw [hentry]; rfl) hmuted

/-- Claim C2 witness: a user muted until 5000 is blocked at time 1000 with
the same `bannedUntil`, for matching and non-matching content alike. -/
theorem C2_witness :
    handleSend (withStrikes stEx1 [(some "u1", ⟨1, 5000⟩)]) "c1" msgSpam 1000 =
      (withStrikes stEx1 [(some "u1", ⟨1, 5000⟩)], [Emit.messageBlocked "c1" 5000]) ∧
    handleSend (withStrikes stEx1 [(some "u1", ⟨1, 5000⟩)]) "c1" msgHello 1000 =
      (withStrikes stEx1 [(some "u1", ⟨1, 5000⟩)], [Emit.messageBlocked "c1" 5000]) := by
  constructor
  · exact C2_muted_blocks (withStrikes stEx1 [(some "u1", ⟨1, 5000⟩)]) "c1" 1000 1 5000
      (by decide) (by decide) msgSpam
  · exact C2_muted_blocks (withStrikes stEx1 [(some "u1", ⟨1, 5000⟩)]) "c1" 1000 1 5000
      (by decide) (by decide) msgHello

/-- Claim C3 counterexample: user `u` joined room `R` from `c1`, then again
from the newer connection `c2`, so the surviving presence entry is bound to
`c2`.  The claim says disconnecting `c1` must leave that entry in place; in
fact the disconnect handler deletes by `socket.userId`, so the entry bound
to the live connection `c2` is removed as well. -/
theorem C3_counterexample :
    getA (groupUsersOf exReconnect2 "R") "u" = some ⟨"alice", "c2"⟩ ∧
    getA (groupUsersOf (handleDisconnect exReconnect2 "c1").1 "R") "u" = none := by
  constructor <;> decide

/-- Claim C3 amended: processing a disconnect removes, from every room's
presence map, exactly the entry keyed by the disconnecting socket's `userId`
— regardless of which connection that entry is currently bound to — and
leaves entries under every other key untouched; a socket with no `userId`
removes nothing. -/
theorem C3_disconnect_removes_by_userId (st : ServerState) (c g : String)
    (hnd : ((groupUsersOf st g).map Prod.fst).Nodup) :
    (∀ u, (socketOf st c).userId = some u →
      getA (groupUsersOf (handleDisconnect st c).1 g) u = none ∧
      ∀ k, k ≠ u →
        getA (groupUsersOf (handleDisconnect st c).1 g) k =
          getA (groupUsersOf st g) k) ∧
    ((socketOf st c).userId = none →
      groupUsersOf (handleDisconnect st c).1 g = groupUsersOf st g) := by
  rw [groupUsersOf_disconnect]
  constructor
  · intro u hu
    rw [hu]
    simp only [removeUid]
    by_cases hg : (getA (groupUsersOf st g) u).isSome
    · rw [if_pos hg]
      exact ⟨getA_eraseA_self _ _ hnd, fun k hk => getA_eraseA_ne _ _ _ hk⟩
    · rw [if_neg hg]
      exact ⟨Option.not_isSome_iff_eq_none.mp hg, fun k hk => rfl⟩
  · intro hu
    rw [hu]
    rfl

/-- Claim C3 amended witness: in the reconnect scenario, disconnecting `c1`
deletes the entry for key `u` and leaves the (absent) key `v` unchanged. -/
theorem C3_amended_witness :
    getA (groupUsersOf (handleDisconnect exReconnect2 "c1").1 "R") "u" = none ∧
    getA (groupUsersOf (handleDisconnect exReconnect2 "c1").1 "R") "v" =
      getA (groupUsersOf exReconnect2 "R") "v" :=
  ⟨((C3_disconnect_removes_by_userId exReconnect2 "c1" "R" (by decide)).1 "u"
      (by decide)).1,
   ((C3_disconnect_removes_by_userId exReconnect2 "c1" "R" (by decide)).1 "u"
      (by decide)).2 "v" (by decide)⟩

/-- Claim C4 counterexample: connection `c1` joins room `A` and then room
`B`.  The claim says the join for `B` first removes the presence entry from
`A`; in fact the `user:join` handler never touches other rooms, so `c1`
holds presence entries in both `A` and `B` simultaneously. -/
theorem C4_counterexample :
    getA (groupUsersOf exHop2 "A") "u" = some ⟨"alice", "c1"⟩ ∧
    getA (groupUsersOf exHop2 "B") "u" = some ⟨"alice", "c1"⟩ ∧
    ("A" : String) ≠ "B" := by
  refine ⟨by decide, by decide, by decide⟩

/-- Claim C4 amended: `user:join` inserts/overwrites the presence entry for
`(groupId, userId)` in the target room and leaves every other room's
presence map completely unchanged — there is no implicit leave, so a
connection can accumulate presence entries in several rooms. -/
theorem C4_join_keeps_other_rooms (st : ServerState) (c u un g : String) :
    getA (groupUsersOf (handleJoin st c u un g).1 g) u = some ⟨un, c⟩ ∧
    ∀ h, h ≠ g → groupUsersOf (handleJoin st c u un g).1 h = groupUsersOf st h := by
  constructor
  · rw [groupUsersOf, handleJoin_onlineUsers, getA_setA_self]
    exact getA_setA_self _ _ _
  · intro h hh
    rw [groupUsersOf, groupUsersOf, handleJoin_onlineUsers, getA_setA_ne _ _ _ _ hh]

/-- Claim C4 amended witness: joining `B` from `c1` adds the entry in `B`
and leaves room `A`'s presence untouched. -/
theorem C4_amended_witness :
    getA (groupUsersOf exHop2 "B") "u" = some ⟨"alice", "c1"⟩ ∧
    groupUsersOf exHop2 "A" = groupUsersOf exHop1 "A" :=
  ⟨(C4_join_keeps_other_rooms exHop1 "c1" "u" "alice" "B").1,
   (C4_join_keeps_other_rooms exHop1 "c1" "u" "alice" "B").2 "A" (by decide)⟩

/-- Claim C5 counterexample: a send whose content is the empty string is not
dropped — the handler has no emptiness check, the empty text matches no
pattern, and the payload is fanned out to the room. -/
theorem C5_counterexample :
    msgEmpty.content = some "" ∧
    (handleSend stEx1 "c1" msgEmpty 1000).2 =
      [Emit.messageNew ["c1", "c2"] msgEmpty] := by
  constructor
  · rfl
  · decide

/-- Claim C5 amended: `handleSend` performs no emptiness check.  An
empty-content send from a non-muted sender matches no banned pattern (empty
patterns are skipped by the truthiness guard and non-empty patterns are not
substrings of the empty string) and is therefore fanned out to the room like
any allowed message, with no warning or blocked notice and no state
change. -/
theorem C5_empty_content_fanned_out (st : ServerState) (c : String)
    (msg : MessageData) (now s b : Nat)
    (hstate : (getA st.userStrikeState (socketOf st c).userId).getD ⟨0, 0⟩ = ⟨s, b⟩)
    (hnm : b ≤ now)
    (hempty : msg.content.getD "" = "") :
    handleSend st c msg now =
      (st, [Emit.messageNew (roomConns st msg.groupId) msg]) := by
  apply handleSend_fanout st c msg now s b hstate hnm
  rw [hempty]
  exact findMatch_empty_text _

/-- Claim C5 amended witness. -/
theorem C5_witness :
    handleSend stEx1 "c1" msgEmpty 1000 =
      (stEx1, [Emit.messageNew (roomConns stEx1 msgEmpty.groupId) msgEmpty]) :=
  C5_empty_content_fanned_out stEx1 "c1" msgEmpty 1000 0 0 (by decide) (by decide) rfl

/-- Claim C6 counterexample: an allowed message is fanned out to the room,
but the emission list contains no persistence signal — the `message:send`
handler never calls the storage collaborator, contradicting the claim's
"additionally signals the persistence collaborator" conjunct. -/
theorem C6_counterexample :
    (handleSend stEx1 "c1" msgHello 1000).2 =
      [Emit.messageNew ["c1", "c2"] msgHello] ∧
    (handleSend stEx1 "c1" msgHello 1000).2.filter isStoreEmit = [] := by
  constructor <;> decide

/-- Claim C6 amended: a non-muted sender's message matching no banned
pattern is delivered exactly once to every connection subscribed to the
target room (the subscriber list, assumed duplicate-free as maintained by
`socket.join`, includes the sender); no persistence signal is emitted — the
send path does not involve the storage collaborator. -/
theorem C6_fanout_no_persistence (st : ServerState) (c : String)
    (msg : MessageData) (now s b : Nat)
    (hstate : (getA st.userStrikeState (socketOf st c).userId).getD ⟨0, 0⟩ = ⟨s, b⟩)
    (hnm : b ≤ now)
    (hnomatch : findMatch st.bannedPatterns (strToLower (msg.content.getD "")) = none)
    (hmem : c ∈ roomConns st msg.groupId)
    (hnd : (roomConns st msg.groupId).Nodup) :
    handleSend st c msg now =
      (st, [Emit.messageNew (roomConns st msg.groupId) msg]) ∧
    c ∈ roomConns st msg.groupId ∧
    (∀ d ∈ roomConns st msg.groupId, (roomConns st msg.groupId).count d = 1) ∧
    (handleSend st c msg now).2.filter isStoreEmit = [] := by
  have hfan := handleSend_fanout st c msg now s b hstate hnm hnomatch
  refine ⟨hfan, hmem, fun d hd => List.count_eq_one_of_mem hnd hd, ?_⟩
  rw [hfan]
  rfl

/-- Claim C6 amended witness. -/
theorem C6_witness :
    handleSend stEx1 "c1" msgHello 1000 =
      (stEx1, [Emit.messageNew (roomConns stEx1 msgHello.groupId) msgHello]) ∧
    "c1" ∈ roomConns stEx1 msgHello.groupId ∧
    (∀ d ∈ roomConns stEx1 msgHello.groupId,
      (roomConns stEx1 msgHello.groupId).count d = 1) ∧
    (handleSend stEx1 "c1" msgHello 1000).2.filter isStoreEmit = [] :=
  C6_fanout_no_persistence stEx1 "c1" msgHello 1000 0 0 (by decide) (by decide)
    (by decide) (by decide) (by decide)

/-- Claim C7: moderation fails open.  First, empty strings in the banned
pattern set never influence matching (the match result equals the result
over the list with empty strings removed, for every text).  Second, when the
active pattern list is empty, every message attempt by a non-muted sender is
fanned out to the room — never warned, never blocked. -/
theorem C7_fail_open :
    (∀ pats text, findMatch pats text = findMatch (pats.filter (fun p => p != "")) text) ∧
    (∀ (st : ServerState) (c : String) (msg : MessageData) (now s b : Nat),
      (getA st.userStrikeState (socketOf st c).userId).getD ⟨0, 0⟩ = ⟨s, b⟩ →
      b ≤ now → st.bannedPatterns = [] →
      handleSend st c msg now =
        (st, [Emit.messageNew (roomConns st msg.groupId) msg])) := by
  refine ⟨findMatch_filter_empty, fun st c msg now s b hstate hnm hpats => ?_⟩
  apply handleSend_fanout st c msg now s b hstate hnm
  rw [hpats]
  rfl

/-- Claim C7 witness: with the pattern list emptied, even the previously
banned content is fanned out. -/
theorem C7_witness :
    handleSend stEx3 "c1" msgSpam 1000 =
      (stEx3, [Emit.messageNew (roomConns stEx3 msgSpam.groupId) msgSpam]) :=
  C7_fail_open.2 stEx3 "c1" msgSpam 1000 0 0 (by decide) (by decide) rfl

/-- Claim C8: pattern reload is all-or-nothing.  A failed fetch — and
likewise a reload attempted with no database — leaves the active pattern
list exactly as it was (never replaced with an empty list), while a
successful fetch replaces it in a single assignment by the lowercased
`username` fields of the fetched rows. -/
theorem C8_reload_all_or_nothing (current : List String) :
    (∀ e, loadBannedPatterns true (Except.error e) current = current) ∧
    (∀ f, loadBannedPatterns false f current = current) ∧
    (∀ rows, loadBannedPatterns true (Except.ok rows) current =
      rows.map (fun r => strToLower (r.username.getD ""))) := by
  refine ⟨fun e => rfl, fun f => rfl, fun rows => rfl⟩

/-- Claim C9: strike state for connections without an established identity
is shared.  For connections whose sockets carry no `userId` (never processed
a `user:join`), all strikes accrue to the single entry keyed by `none`:
three matching messages spread across such connections yield warning(1),
warning(2), then one mute of 10 minutes recorded under `none`, and a fourth
attempt from yet another anonymous connection within the mute window is
blocked with that same `bannedUntil`. -/
theorem C9_anonymous_shared_strikes (st : ServerState) (c1 c2 c3 c4 : String)
    (m1 m2 m3 m4 : MessageData) (t1 t2 t3 t4 : Nat)
    (h1 : (socketOf st c1).userId = none)
    (h2 : (socketOf st c2).userId = none)
    (h3 : (socketOf st c3).userId = none)
    (h4 : (socketOf st c4).userId = none)
    (hs0 : getA st.userStrikeState none = none)
    (hm1 : (findMatch st.bannedPatterns (strToLower (m1.content.getD ""))).isSome)
    (hm2 : (findMatch st.bannedPatterns (strToLower (m2.content.getD ""))).isSome)
    (hm3 : (findMatch st.bannedPatterns (strToLower (m3.content.getD ""))).isSome)
    (ht4 : t4 < t3 + 10 * 60 * 1000) :
    (handleSend st c1 m1 t1).2 = [Emit.messageWarning c1 1] ∧
    (handleSend (handleSend st c1 m1 t1).1 c2 m2 t2).2 =
      [Emit.messageWarning c2 2] ∧
    (handleSend (handleSend (handleSend st c1 m1 t1).1 c2 m2 t2).1 c3 m3 t3).2 =
      [Emit.messageBlocked c3 (t3 + 10 * 60 * 1000)] ∧
    getA (handleSend (handleSend (handleSend st c1 m1 t1).1 c2 m2 t2).1
        c3 m3 t3).1.userStrikeState none = some ⟨0, t3 + 10 * 60 * 1000⟩ ∧
    handleSend (handleSend (handleSend (handleSend st c1 m1 t1).1 c2 m2 t2).1
        c3 m3 t3).1 c4 m4 t4 =
      ((handleSend (handleSend (handleSend st c1 m1 t1).1 c2 m2 t2).1 c3 m3 t3).1,
       [Emit.messageBlocked c4 (t3 + 10 * 60 * 1000)]) := by
  have e1 : handleSend st c1 m1 t1 =
      (withStrikes st (setA st.userStrikeState none ⟨1, 0⟩),
       [Emit.messageWarning c1 1]) := by
    have h := handleSend_warning_step st c1 m1 t1 0 0
      (by rw [h1, hs0]; rfl) (Nat.zero_le _) hm1 (by omega)
    rw [h1] at h
    exact h
  have e2 : handleSend (handleSend st c1 m1 t1).1 c2 m2 t2 =
      (withStrikes (withStrikes st (setA st.userStrikeState none ⟨1, 0⟩))
         (setA (setA st.userStrikeState none ⟨1, 0⟩) none ⟨2, 0⟩),
       [Emit.messageWarning c2 2]) := by
    rw [e1]
    have h := handleSend_warning_step
      (withStrikes st (setA st.userStrikeState none ⟨1, 0⟩)) c2 m2 t2 1 0
      (by
        show (getA (setA st.userStrikeState none ⟨1, 0⟩)
          (socketOf st c2).userId).getD ⟨0, 0⟩ = ⟨1, 0⟩
        rw [h2, getA_setA_self]
        rfl)
      (Nat.zero_le _) hm2 (by omega)
    rw [socketOf_withStrikes, h2] at h
    exact h
  have e3 : handleSend (handleSend (handleSend st c1 m1 t1).1 c2 m2 t2).1 c3 m3 t3 =
      (withStrikes
         (withStrikes (withStrikes st (setA st.userStrikeState none ⟨1, 0⟩))
            (setA (setA st.userStrikeState none ⟨1, 0⟩) none ⟨2, 0⟩))
         (setA (setA (setA st.userStrikeState none ⟨1, 0⟩) none ⟨2, 0⟩) none
            ⟨0, t3 + 10 * 60 * 1000⟩),
       [Emit.messageBlocked c3 (t3 + 10 * 60 * 1000)]) := by
    rw [e2]
    have h := handleSend_mute_step
      (withStrikes (withStrikes st (setA st.userStrikeState none ⟨1, 0⟩))
         (setA (setA st.userStrikeState none ⟨1, 0⟩) none ⟨2, 0⟩)) c3 m3 t3 2 0
      (by
        show (getA (setA (setA st.userStrikeState none ⟨1, 0⟩) none ⟨2, 0⟩)
          (socketOf st c3).userId).getD ⟨0, 0⟩ = ⟨2, 0⟩
        rw [h3, getA_setA_self]
        rfl)
      (Nat.zero_le _) hm3 (by omega)
    rw [socketOf_withStrikes, socketOf_withStrikes, h3] at h
    exact h
  refine ⟨by rw [e1], by rw [e2], by rw [e3], ?_, ?_⟩
  · rw [e3]
    exact getA_setA_self _ _ _
  · rw [e3]
    exact handleSend_blocked_of_muted _ c4 m4 t4 0 (t3 + 10 * 60 * 1000)
      (by
        show (getA (setA (setA (setA st.userStrikeState none ⟨1, 0⟩) none ⟨2, 0⟩) none
          ⟨0, t3 + 10 * 60 * 1000⟩) (socketOf st c4).userId).getD ⟨0, 0⟩ =
          ⟨0, t3 + 10 * 60 * 1000⟩
        rw [h4, getA_setA_self]
        rfl)
      (by omega)

/-- Claim C9 witness: two anonymous connections `cA` and `cB` alternate
three spam messages, producing warnings 1 and 2 and then a shared mute that
also blocks the other connection. -/
theorem C9_witness :
    (handleSend stEx4 "cA" msgAnon 10).2 = [Emit.messageWarning "cA" 1] ∧
    (handleSend (handleSend stEx4 "cA" msgAnon 10).1 "cB" msgAnon 20).2 =
      [Emit.messageWarning "cB" 2] ∧
    (handleSend (handleSend (handleSend stEx4 "cA" msgAnon 10).1 "cB" msgAnon 20).1
        "cA" msgAnon 30).2 = [Emit.messageBlocked "cA" (30 + 10 * 60 * 1000)] ∧
    getA (handleSend (handleSend (handleSend stEx4 "cA" msgAnon 10).1 "cB" msgAnon
        20).1 "cA" msgAnon 30).1.userStrikeState none =
      some ⟨0, 30 + 10 * 60 * 1000⟩ ∧
    handleSend (handleSend (handleSend (handleSend stEx4 "cA" msgAnon 10).1 "cB"
        msgAnon 20).1 "cA" msgAnon 30).1 "cB" msgAnon 40 =
      ((handleSend (handleSend (handleSend stEx4 "cA" msgAnon 10).1 "cB" msgAnon
          20).1 "cA" msgAnon 30).1,
       [Emit.messageBlocked "cB" (30 + 10 * 60 * 1000)]) :=
  C9_anonymous_shared_strikes stEx4 "cA" "cB" "cA" "cB" msgAnon msgAnon msgAnon
    msgAnon 10 20 30 40 rfl rfl rfl rfl rfl (by decide) (by decide) (by decide)
    (by decide)

/-- Claim C10: room membership is not a precondition for sending.  The
hypotheses that the sender is not subscribed to the room and appears in no
presence entry for it are never consulted: the allowed message is fanned out
to the room's subscriber list all the same, because `handleSend` performs no
membership or presence check on the sender. -/
theorem C10_no_membership_check (st : ServerState) (c : String)
    (msg : MessageData) (now s b : Nat)
    (hstate : (getA st.userStrikeState (socketOf st c).userId).getD ⟨0, 0⟩ = ⟨s, b⟩)
    (hnm : b ≤ now)
    (hnomatch : findMatch st.bannedPatterns (strToLower (msg.content.getD "")) = none)
    (hnotin : c ∉ roomConns st msg.groupId)
    (hnopresence : ∀ p ∈ groupUsersOf st msg.groupId, p.2.socketId ≠ c) :
    handleSend st c msg now =
      (st, [Emit.messageNew (roomConns st msg.groupId) msg]) :=
  handleSend_fanout st c msg now s b hstate hnm hnomatch

/-- Claim C10 witness: connection `c9` never joined room `R` and has no
presence entry there, yet its message is fanned out to `R`'s subscribers. -/
theorem C10_witness :
    handleSend stEx1 "c9" msgOutside 1000 =
      (stEx1, [Emit.messageNew (roomConns stEx1 msgOutside.groupId) msgOutside]) :=
  C10_no_membership_check stEx1 "c9" msgOutside 1000 0 0 (by decide) (by decide)
    (by decide) (by decide) (by decide)

end GlobalChat
